import Mathlib

/-!
Verification of the cvopt model-selection search layer.

Shallow embedding of `cvopt/model_selection/_search.py` and of the
collaborators it calls (`mk_objfunc` / `mk_feature_select_index` from
`_base.py`, `gamin` from `_ga.py`, the best-result tracking of
`CVSummarizer` from `_logger.py`).  The collaborators are not part of the
sources at hand, so they are modelled from the specification; every such
definition is marked `Modelled from the spec:` in its doc comment.
All definitions derived from `_search.py` cite the lines they embed.

Scores are Python floats used only for ordering and aggregation; they are
modelled as rationals, with a separate constructor for the IEEE NaN that
the code uses as its failure sentinel (`np.nan`).
-/

/-- A score value: either the undefined numeric value (`np.nan` in the code)
or a finite numeric score. -/
inductive Score where
  | nan : Score
  | val : ℚ → Score
deriving DecidableEq, Repr

/-- Whether a score is the undefined numeric value. -/
def Score.isNan : Score → Bool
  | Score.nan => true
  | Score.val _ => false

/-- The four search backends of the package (`_search.py` defines one
searcher class per backend). -/
inductive BackendKind where
  | hyperopt
  | bayesopt
  | gaopt
  | randomopt
deriving DecidableEq, Repr

/-- The backend names accepted by `SimpleoptCV.__init__`
(`_search.py` lines 124-149). -/
def SimpleoptCV.supportedBackends : List String :=
  ["hyperopt", "bayesopt", "gaopt", "randomopt"]

/-- Backend dispatch of `SimpleoptCV.__init__` (`_search.py` lines 119-149):
each of the four supported names constructs the corresponding backend
searcher, any other name raises
`Exception("\x60backend\x60 " + str(backend) + " is not supported.")`.
The raise is embedded as `Except.error` with the message text. -/
def SimpleoptCV.init (backend : String) : Except String BackendKind :=
  if backend = "hyperopt" then Except.ok BackendKind.hyperopt
  else if backend = "bayesopt" then Except.ok BackendKind.bayesopt
  else if backend = "gaopt" then Except.ok BackendKind.gaopt
  else if backend = "randomopt" then Except.ok BackendKind.randomopt
  else Except.error ("\x60backend\x60 " ++ backend ++ " is not supported.")

/-- The attribute names that a constructed `SimpleoptCV` instance defines
itself: `__init__` assigns `self.optcv` and `self.backend`
(`_search.py` lines 125-151); the class defines no other data attribute
and no `fit` method of its own. -/
def SimpleoptCV.ownAttrs : List String := ["optcv", "backend"]

/-- Attribute access on a `SimpleoptCV` instance.  Python calls
`__getattr__` only when normal lookup fails, and `SimpleoptCV.__getattr__`
(`_search.py` lines 153-154) returns `getattr(self.optcv, name)`: so a
name defined on the instance resolves to the instance's own value and
every other name resolves to the wrapped backend searcher's attribute. -/
def SimpleoptCV.getattr {V : Type} (ownVal backendAttr : String → V)
    (name : String) : V :=
  if name ∈ SimpleoptCV.ownAttrs then ownVal name else backendAttr name

/-- Update of `self.failedscore` at the start of `BayesoptCV.fit`
(`_search.py` lines 562-565): when the stored value is `None` it is set to
`self._random_scoring(y)` (here the parameter `rscore`), otherwise the
stored value is kept unchanged. -/
def BayesoptCV.updateFailedscore (stored : Option ℚ) (rscore : ℚ) :
    Option ℚ :=
  match stored with
  | none => some rscore
  | some v => some v

/-- The stored `failedscore` of a `BayesoptCV` instance after a sequence of
`fit` calls.  `__init__` sets it to `None` (`_search.py` line 527); each
`fit` call applies `BayesoptCV.updateFailedscore` with the random scoring
of that call's `y` (`rscore` abstracts `self._random_scoring`, which lives
in `_base.py`). -/
def BayesoptCV.failedscoreAfterFits (rscore : List ℚ → ℚ)
    (stored : Option ℚ) (ys : List (List ℚ)) : Option ℚ :=
  ys.foldl (fun st y => BayesoptCV.updateFailedscore st (rscore y)) stored

/-- The `failedscore` argument that each backend's `fit` passes to
`mk_objfunc`: `np.nan` for hyperopt (`_search.py` line 305), gaopt
(line 769) and randomopt (line 930); the stored-or-freshly-computed
`self.failedscore` for bayesopt (lines 562-569). -/
def fit_failedscore (bk : BackendKind) (stored : Option ℚ) (rscore : ℚ) :
    Score :=
  match bk with
  | BackendKind.hyperopt => Score.nan
  | BackendKind.bayesopt =>
    match BayesoptCV.updateFailedscore stored rscore with
    | some v => Score.val v
    | none => Score.nan
  | BackendKind.gaopt => Score.nan
  | BackendKind.randomopt => Score.nan

/-- Python exceptions relevant to the `fit` search loop: the user interrupt
that `except KeyboardInterrupt: pass` catches, and any other exception,
which the handler does not catch. -/
inductive PyExc where
  | keyboardInterrupt
  | other
deriving DecidableEq, Repr

/-- The state of the `CVSummarizer` that every backend's `fit` shares with
its objective function: the best parameters and best score recorded so
far (`self._cvs.best_params_`, `self._cvs.best_score_`). -/
structure CVSummary where
  best_params_ : Option (List (String × ℚ))
  best_score_ : Option ℚ
deriving DecidableEq, Repr

/-- The attributes `_postproc_fit` exposes on the searcher after the search
loop: `fit` calls it with `self._cvs.best_params_` and
`self._cvs.best_score_` (`_search.py` lines 315-316, 589-590, 781-782,
942-943). -/
structure FittedAttrs where
  best_params_ : Option (List (String × ℚ))
  best_score_ : Option ℚ
deriving DecidableEq, Repr

/-- Result of one `fit` call: the exception it propagates (if any), whether
it reached its `return self`, and the post-fit attributes it exposed
(`none` when the exception aborted `fit` before post-processing). -/
structure FitResult where
  raised : Option PyExc
  returnedSelf : Bool
  attrs : Option FittedAttrs
deriving DecidableEq, Repr

/-- Post-processing step of `fit`: expose the summarizer's best parameters
and best score (`self._postproc_fit(..., best_params=self._cvs.best_params_,
best_score=self._cvs.best_score_)`). -/
def BaseSearcher.postprocExpose (cvs : CVSummary) : FittedAttrs :=
  ⟨cvs.best_params_, cvs.best_score_⟩

/-- The shared tail of every backend's `fit` (`_search.py` lines 310-317
for hyperopt, 584-591 for bayesopt, 774-783 for gaopt, 935-944 for
randomopt): run the search driver inside
`try: ... except KeyboardInterrupt: pass`, then unconditionally run
`_postproc_fit` on the summarizer state the driver left behind and
`return self`.  The driver is a function from the summarizer state to the
state it leaves behind (its mutations survive an exception) paired with
the exception it raised, if any.  Only `KeyboardInterrupt` is caught; any
other exception propagates before post-processing. -/
def BaseSearcher.fitLoop (driver : CVSummary → CVSummary × Option PyExc)
    (cvs : CVSummary) : FitResult :=
  match driver cvs with
  | (cvs2, some PyExc.keyboardInterrupt) =>
    ⟨none, true, some (BaseSearcher.postprocExpose cvs2)⟩
  | (_, some PyExc.other) => ⟨some PyExc.other, false, none⟩
  | (cvs2, none) => ⟨none, true, some (BaseSearcher.postprocExpose cvs2)⟩

/-- `fit` of the backend selected by `bk`: every backend runs the same
try/except/post-process skeleton around its own search driver. -/
def backendFit (bk : BackendKind)
    (drivers : BackendKind → CVSummary → CVSummary × Option PyExc)
    (cvs : CVSummary) : FitResult :=
  BaseSearcher.fitLoop (drivers bk) cvs

/-- A crossover / mutation / random-sampling probability argument of
`gamin`: the code accepts a constant or a function of the generation
number (`_search.py` lines 675-696). -/
inductive ProbaParam where
  | const : ℚ → ProbaParam
  | fn : (Nat → ℚ) → ProbaParam

/-- The arguments a backend's `fit` passes to the genetic-algorithm driver
`gamin` (`_search.py` lines 775-777 and 936-938). -/
structure GaminCall where
  max_iter : Nat
  iter_pergeneration : Nat
  param_crossover_proba : ProbaParam
  param_mutation_proba : ProbaParam
  random_sampling_proba : ProbaParam

/-- The arguments a backend's `fit` passes to `mk_objfunc` that vary
between backends (`_search.py` lines 303-308, 767-772, 928-933): the
backend tag set in `__init__` and the failure score; all remaining
arguments are forwarded from the shared fit inputs unchanged. -/
structure ObjfuncCall where
  backend : String
  failedscore : Score
  min_n_features : Nat
deriving DecidableEq, Repr

/-- Everything a `gamin`-driven `fit` does that depends on the searcher's
own configuration: the seed passed to `np.random.seed`, the objective
construction, and the `gamin` call. -/
structure GAFitCall where
  seed : Option Nat
  objfunc : ObjfuncCall
  driver : GaminCall

/-- Configuration of a `GAoptCV` searcher as stored by `__init__`
(`_search.py` lines 713-732), restricted to the fields its `fit` reads,
together with the `min_n_features` argument of the `fit` call itself. -/
structure GAoptConfig where
  max_iter : Nat
  iter_pergeneration : Nat
  param_crossover_proba : ProbaParam
  param_mutation_proba : ProbaParam
  random_sampling_proba : ProbaParam
  random_state : Option Nat
  min_n_features : Nat

/-- Configuration of a `RandomoptCV` searcher as stored by `__init__`
(`_search.py` lines 880-893), restricted to the fields its `fit` reads,
together with the `min_n_features` argument of the `fit` call itself. -/
structure RandomoptConfig where
  max_iter : Nat
  random_state : Option Nat
  min_n_features : Nat

/-- The calls `GAoptCV.fit` makes (`_search.py` lines 764-779): seed the
generator with `self.random_state`, build the objective with
`backend="gaopt"` (set at line 722) and `failedscore=np.nan` (line 769),
then run `gamin` with the stored genetic-algorithm parameters. -/
def GAoptCV.fitCall (cfg : GAoptConfig) : GAFitCall :=
  ⟨cfg.random_state,
   ⟨"gaopt", Score.nan, cfg.min_n_features⟩,
   ⟨cfg.max_iter, cfg.iter_pergeneration, cfg.param_crossover_proba,
    cfg.param_mutation_proba, cfg.random_sampling_proba⟩⟩

/-- The calls `RandomoptCV.fit` makes (`_search.py` lines 925-940): seed
the generator with `self.random_state`, build the objective with
`backend="gaopt"` (set at line 887) and `failedscore=np.nan` (line 930),
then run `gamin` with `iter_pergeneration=1`, `param_crossover_proba=0`,
`param_mutation_proba=0`, `random_sampling_proba=1` (lines 936-938). -/
def RandomoptCV.fitCall (cfg : RandomoptConfig) : GAFitCall :=
  ⟨cfg.random_state,
   ⟨"gaopt", Score.nan, cfg.min_n_features⟩,
   ⟨cfg.max_iter, 1, ProbaParam.const 0, ProbaParam.const 0,
    ProbaParam.const 1⟩⟩

/-- The `GAoptCV` configuration the spec designates as the random-search
specialization: `iter_pergeneration=1`, `param_crossover_proba=0`,
`param_mutation_proba=0`, `random_sampling_proba=1`, all else shared. -/
def randomSpecializedGAConfig (cfg : RandomoptConfig) : GAoptConfig :=
  ⟨cfg.max_iter, 1, ProbaParam.const 0, ProbaParam.const 0,
   ProbaParam.const 1, cfg.random_state, cfg.min_n_features⟩

/-- Modelled from the spec: `mk_feature_select_index` (the FeatureSelector
of `_base.py`, not among the sources).  Given the feature-group label of
every original column and the group inclusion flags drawn from the
parameter set, it produces the sorted set of column indices whose group
flag is true. -/
def mk_feature_select_index (feature_groups : List Nat)
    (flags : Nat → Bool) : List Nat :=
  (List.range feature_groups.length).filter
    (fun i => flags (feature_groups.getD i 0))

/-- One trial record as the objective function logs it: the per-fold
outcomes actually evaluated (`none` marks a fold failure), the aggregated
trial score, and the failure flag. -/
structure Trial where
  fold_scores : List (Option ℚ)
  score : Score
  failed : Bool
deriving DecidableEq, Repr

/-- Modelled from the spec: the default score aggregator, the arithmetic
mean of the successful fold scores. -/
def score_summarizer_mean (xs : List ℚ) : ℚ := xs.sum / xs.length

/-- Modelled from the spec: the objective function built by `mk_objfunc`
(`_base.py`, not among the sources).  For one candidate parameter set it
(1) resolves the feature indices through the FeatureSelector; (2) when the
selection yields fewer columns than `min_n_features`, records the trial as
failed and returns the failure score immediately, evaluating no fold;
(3) otherwise evaluates every fold (`fold_eval` returns `none` on a fold
failure), aggregates the successful fold scores with `score_summarizer`,
and falls back to the failure score when every fold failed. -/
def mk_objfunc_evaluate (min_n_features : Nat) (failedscore : Score)
    (score_summarizer : List ℚ → ℚ) (feature_groups : List Nat)
    (nFolds : Nat) (fold_eval : List Nat → Nat → Option ℚ)
    (flags : Nat → Bool) : Trial :=
  let idx := mk_feature_select_index feature_groups flags
  if idx.length < min_n_features then
    ⟨[], failedscore, true⟩
  else
    let fs := (List.range nFolds).map (fold_eval idx)
    let succ := fs.filterMap id
    if succ.isEmpty then ⟨fs, failedscore, true⟩
    else ⟨fs, Score.val (score_summarizer succ), fs.any Option.isNone⟩

/-- Direction of score comparison: the scoring convention decides whether
greater or smaller scores are better. -/
inductive Direction where
  | maximize
  | minimize
deriving DecidableEq, Repr

/-- Modelled from the spec: strict "new score is better than old score"
comparison under the configured direction. -/
def betterScore (d : Direction) (newScore oldScore : ℚ) : Bool :=
  match d with
  | Direction.maximize => decide (oldScore < newScore)
  | Direction.minimize => decide (newScore < oldScore)

/-- Modelled from the spec: the BestResult update of the `CVSummarizer`
(`_logger.py`, not among the sources) after one trial: the best score is
replaced only when the trial succeeded with a strictly better finite
score; a NaN trial score never replaces the best, and the first finite
score fills an empty best. -/
def bestStep (d : Direction) (best : Option ℚ) (s : Score) : Option ℚ :=
  match s with
  | Score.nan => best
  | Score.val a =>
    match best with
    | none => some a
    | some b => if betterScore d a b then some a else best

/-- The BestResult score after a whole trial history has been processed. -/
def bestAfter (d : Direction) (init : Option ℚ) (trials : List Score) :
    Option ℚ :=
  trials.foldl (bestStep d) init

/-- "The best score after is at least as good as the best score before":
an empty best may be filled, a recorded best may only move in the
configured direction. -/
def notWorse (d : Direction) (after before : Option ℚ) : Prop :=
  match before, after with
  | none, _ => True
  | some _, none => False
  | some b, some a =>
    match d with
    | Direction.maximize => b ≤ a
    | Direction.minimize => a ≤ b

/-- Modelled from the spec: the crossover decision of the `gamin` breeding
step (`_ga.py`, not among the sources).  For every parameter
independently, a random draw `r` in `[0, 1)` against the crossover
probability `p` decides which parent's value the offspring inherits: the
other parent's value when `r < p`, the designated parent's value
otherwise. -/
def crossoverParam {V : Type} (p r : ℚ) (designated other : V) : V :=
  if r < p then other else designated

/-- Modelled from the spec: a whole offspring after the crossover phase,
one independent draw `rs i` per parameter index `i`. -/
def crossoverOffspring {V : Type} (p : ℚ) (rs : Nat → ℚ)
    (designated other : Nat → V) : Nat → V :=
  fun i => crossoverParam p (rs i) (designated i) (other i)

/-- Modelled from the spec: the mutation phase of the `gamin` breeding
step: each parameter is independently resampled from its original
distribution (value `fresh i`) when its draw `rs i` falls below the
mutation probability `p`, and kept otherwise. -/
def mutateOffspring {V : Type} (p : ℚ) (rs : Nat → ℚ)
    (current fresh : Nat → V) : Nat → V :=
  fun i => if rs i < p then fresh i else current i

/-- A driver that records one score and is then interrupted by the user. -/
def interruptedDriverExample :
    BackendKind → CVSummary → CVSummary × Option PyExc :=
  fun _ cvs => (⟨cvs.best_params_, some 1⟩, some PyExc.keyboardInterrupt)

/-- Score of a trial seen as an optional finite value. -/
def Score.toOption : Score → Option ℚ
  | Score.nan => none
  | Score.val a => some a

/-- Modelled from the spec: whether a trial score is a strict improvement
over the current BestResult under the configured direction (a NaN score
never is; any finite score improves an empty best). -/
def strictImprovement (d : Direction) (s : Score) (best : Option ℚ) :
    Bool :=
  match s with
  | Score.nan => false
  | Score.val a =>
    match best with
    | none => true
    | some b => betterScore d a b

/-- Example feature grouping: three columns in two groups. -/
def featureGroupsExample : List Nat := [0, 0, 1]

/-- Inclusion flags that deselect every feature group. -/
def allOffFlags : Nat → Bool := fun _ => false

/-- Inclusion flags that select every feature group. -/
def allOnFlags : Nat → Bool := fun _ => true

/-- A fold evaluator for which every fold succeeds with score 2. -/
def foldEvalAllOk : List Nat → Nat → Option ℚ := fun _ _ => some 2

/-- A fold evaluator for which every fold fails. -/
def foldEvalAllFail : List Nat → Nat → Option ℚ := fun _ _ => none

/-- A fold evaluator for which the middle of three folds fails. -/
def foldEvalMixed : List Nat → Nat → Option ℚ :=
  fun _ k => if k = 1 then none else some 2

/-- Constant random draws of 1/2 for every parameter index. -/
def halfDraws : Nat → ℚ := fun _ => 1 / 2

/-- A designated parent whose parameters are all 3. -/
def parentOneVals : Nat → ℚ := fun _ => 3

/-- The other parent, whose parameters are all 4. -/
def parentTwoVals : Nat → ℚ := fun _ => 4

/-- Fresh random resamples, all 5. -/
def freshVals : Nat → ℚ := fun _ => 5

lemma notWorse_refl (d : Direction) (b : Option ℚ) : notWorse d b b := by
  cases b <;> cases d <;> simp [notWorse]

lemma notWorse_trans (d : Direction) (c b a : Option ℚ)
    (h1 : notWorse d c b) (h2 : notWorse d b a) : notWorse d c a := by
  cases a <;> cases b <;> cases c <;> cases d <;>
    simp [notWorse] at * <;> linarith

lemma bestStep_notWorse (d : Direction) (best : Option ℚ) (s : Score) :
    notWorse d (bestStep d best s) best := by
  cases s with
  | nan => exact notWorse_refl d best
  | val a =>
    cases best with
    | none => cases d <;> simp [bestStep, notWorse]
    | some b =>
      simp only [bestStep]
      by_cases hb : betterScore d a b = true
      · rw [if_pos hb]
        cases d with
        | maximize =>
          simp only [betterScore, decide_eq_true_eq] at hb
          simp only [notWorse]
          exact le_of_lt hb
        | minimize =>
          simp only [betterScore, decide_eq_true_eq] at hb
          simp only [notWorse]
          exact le_of_lt hb
      · rw [if_neg hb]
        exact notWorse_refl d (some b)

lemma bestAfter_notWorse (d : Direction) (b : Option ℚ) (l : List Score) :
    notWorse d (bestAfter d b l) b := by
  induction l generalizing b with
  | nil => exact notWorse_refl d b
  | cons s t ih =>
    have h1 : bestAfter d b (s :: t) = bestAfter d (bestStep d b s) t := rfl
    rw [h1]
    exact notWorse_trans d _ _ _ (ih (bestStep d b s)) (bestStep_notWorse d b s)

/-- C7: constructing `SimpleoptCV` with a backend name outside
{hyperopt, bayesopt, gaopt, randomopt} raises immediately at construction,
and each of the four valid names selects the corresponding backend
searcher. -/
theorem simpleopt_backend_dispatch (b : String)
    (h : b ∉ SimpleoptCV.supportedBackends) :
    SimpleoptCV.init b =
      Except.error ("\x60backend\x60 " ++ b ++ " is not supported.") ∧
    SimpleoptCV.init "hyperopt" = Except.ok BackendKind.hyperopt ∧
    SimpleoptCV.init "bayesopt" = Except.ok BackendKind.bayesopt ∧
    SimpleoptCV.init "gaopt" = Except.ok BackendKind.gaopt ∧
    SimpleoptCV.init "randomopt" = Except.ok BackendKind.randomopt := by
  refine ⟨?_, rfl, rfl, rfl, rfl⟩
  simp only [SimpleoptCV.supportedBackends, List.mem_cons, List.not_mem_nil,
    or_false, not_or] at h
  obtain ⟨h1, h2, h3, h4⟩ := h
  simp [SimpleoptCV.init, h1, h2, h3, h4]

/-- Witness for C7 at the unsupported backend name "optuna". -/
theorem simpleopt_backend_dispatch_witness :
    ("optuna" ∉ SimpleoptCV.supportedBackends) ∧
    (SimpleoptCV.init "optuna" =
       Except.error ("\x60backend\x60 " ++ "optuna" ++ " is not supported.") ∧
     SimpleoptCV.init "hyperopt" = Except.ok BackendKind.hyperopt ∧
     SimpleoptCV.init "bayesopt" = Except.ok BackendKind.bayesopt ∧
     SimpleoptCV.init "gaopt" = Except.ok BackendKind.gaopt ∧
     SimpleoptCV.init "randomopt" = Except.ok BackendKind.randomopt) :=
  ⟨by decide, simpleopt_backend_dispatch "optuna" (by decide)⟩

/-- C9: every attribute name that `SimpleoptCV` does not define on itself
resolves, through `__getattr__`, to the wrapped backend searcher's
attribute; in particular the post-fit attributes and `fit` are reachable
through the wrapper unchanged. -/
theorem simpleopt_getattr_delegates {V : Type}
    (ownVal backendAttr : String → V) (name : String)
    (h : name ∉ SimpleoptCV.ownAttrs) :
    SimpleoptCV.getattr ownVal backendAttr name = backendAttr name ∧
    SimpleoptCV.getattr ownVal backendAttr "best_params_" =
      backendAttr "best_params_" ∧
    SimpleoptCV.getattr ownVal backendAttr "best_score_" =
      backendAttr "best_score_" ∧
    SimpleoptCV.getattr ownVal backendAttr "best_estimator_" =
      backendAttr "best_estimator_" ∧
    SimpleoptCV.getattr ownVal backendAttr "cv_results_" =
      backendAttr "cv_results_" ∧
    SimpleoptCV.getattr ownVal backendAttr "fit" = backendAttr "fit" := by
  refine ⟨?_, ?_, ?_, ?_, ?_, ?_⟩
  · simp [SimpleoptCV.getattr, h]
  all_goals simp [SimpleoptCV.getattr, SimpleoptCV.ownAttrs]

/-- Witness for C9 at the attribute name "nbest_params_", with concrete
attribute tables. -/
theorem simpleopt_getattr_delegates_witness :
    ("nbest_params_" ∉ SimpleoptCV.ownAttrs) ∧
    (SimpleoptCV.getattr (fun _ => (0 : ℚ)) (fun _ => (1 : ℚ))
       "nbest_params_" = (fun _ => (1 : ℚ)) "nbest_params_" ∧
     SimpleoptCV.getattr (fun _ => (0 : ℚ)) (fun _ => (1 : ℚ))
       "best_params_" = (fun _ => (1 : ℚ)) "best_params_" ∧
     SimpleoptCV.getattr (fun _ => (0 : ℚ)) (fun _ => (1 : ℚ))
       "best_score_" = (fun _ => (1 : ℚ)) "best_score_" ∧
     SimpleoptCV.getattr (fun _ => (0 : ℚ)) (fun _ => (1 : ℚ))
       "best_estimator_" = (fun _ => (1 : ℚ)) "best_estimator_" ∧
     SimpleoptCV.getattr (fun _ => (0 : ℚ)) (fun _ => (1 : ℚ))
       "cv_results_" = (fun _ => (1 : ℚ)) "cv_results_" ∧
     SimpleoptCV.getattr (fun _ => (0 : ℚ)) (fun _ => (1 : ℚ)) "fit" =
       (fun _ => (1 : ℚ)) "fit") :=
  ⟨by decide,
   simpleopt_getattr_delegates (fun _ => (0 : ℚ)) (fun _ => (1 : ℚ))
     "nbest_params_" (by decide)⟩

/-- C10: `BayesoptCV`'s stored `failedscore` is computed only when it is
`None`: the first `fit` sets it from that call's `y`, and every later
`fit`, on any data, leaves it unchanged. -/
theorem bayes_failedscore_set_once (rscore : List ℚ → ℚ) (v : ℚ)
    (ys : List (List ℚ)) (y0 : List ℚ) :
    BayesoptCV.failedscoreAfterFits rscore (some v) ys = some v ∧
    BayesoptCV.failedscoreAfterFits rscore none (y0 :: ys) =
      some (rscore y0) := by
  have stable : ∀ (l : List (List ℚ)) (w : ℚ),
      BayesoptCV.failedscoreAfterFits rscore (some w) l = some w := by
    intro l
    induction l with
    | nil => intro w; rfl
    | cons y t ih =>
      intro w
      simpa [BayesoptCV.failedscoreAfterFits, BayesoptCV.updateFailedscore]
        using ih w
  refine ⟨stable ys v, ?_⟩
  have h1 : BayesoptCV.failedscoreAfterFits rscore none (y0 :: ys) =
      BayesoptCV.failedscoreAfterFits rscore (some (rscore y0)) ys := rfl
  rw [h1]
  exact stable ys (rscore y0)

/-- C4: the failure sentinel passed to `mk_objfunc` is backend-dependent:
hyperopt, gaopt and randomopt pass NaN, while bayesopt always passes a
finite value — the random score computed from `y` at the first fit, the
stored value afterwards. -/
theorem failedscore_backend_policy (stored : Option ℚ) (rscore : ℚ)
    (v : ℚ) :
    fit_failedscore BackendKind.hyperopt stored rscore = Score.nan ∧
    fit_failedscore BackendKind.gaopt stored rscore = Score.nan ∧
    fit_failedscore BackendKind.randomopt stored rscore = Score.nan ∧
    Score.isNan (fit_failedscore BackendKind.bayesopt stored rscore) =
      false ∧
    fit_failedscore BackendKind.bayesopt none rscore = Score.val rscore ∧
    fit_failedscore BackendKind.bayesopt (some v) rscore = Score.val v := by
  refine ⟨rfl, rfl, rfl, ?_, rfl, rfl⟩
  cases stored <;> rfl

/-- C2: for every backend, a `KeyboardInterrupt` raised during the search
loop inside `fit` is caught: `fit` still post-processes the best-so-far
summarizer state left by the interrupted driver and reaches its
`return self`, propagating nothing.  (The same holds when the driver
completes normally; only an exception other than `KeyboardInterrupt`
escapes.) -/
theorem fit_catches_keyboard_interrupt (bk : BackendKind)
    (drivers : BackendKind → CVSummary → CVSummary × Option PyExc)
    (cvs : CVSummary)
    (h : (drivers bk cvs).2 = some PyExc.keyboardInterrupt ∨
         (drivers bk cvs).2 = none) :
    (backendFit bk drivers cvs).raised = none ∧
    (backendFit bk drivers cvs).returnedSelf = true ∧
    (backendFit bk drivers cvs).attrs =
      some (BaseSearcher.postprocExpose (drivers bk cvs).1) := by
  unfold backendFit BaseSearcher.fitLoop
  rcases hd : drivers bk cvs with ⟨cvs2, e⟩
  rw [hd] at h
  rcases h with h | h
  · have he : e = some PyExc.keyboardInterrupt := h
    subst he; exact ⟨rfl, rfl, rfl⟩
  · have he : e = none := h
    subst he; exact ⟨rfl, rfl, rfl⟩

/-- Witness for C2: the gaopt backend with a driver interrupted after
recording a best score of 1. -/
theorem fit_catches_keyboard_interrupt_witness :
    ((interruptedDriverExample BackendKind.gaopt ⟨none, none⟩).2 =
       some PyExc.keyboardInterrupt ∨
     (interruptedDriverExample BackendKind.gaopt ⟨none, none⟩).2 = none) ∧
    ((backendFit BackendKind.gaopt interruptedDriverExample
        ⟨none, none⟩).raised = none ∧
     (backendFit BackendKind.gaopt interruptedDriverExample
        ⟨none, none⟩).returnedSelf = true ∧
     (backendFit BackendKind.gaopt interruptedDriverExample
        ⟨none, none⟩).attrs =
       some (BaseSearcher.postprocExpose
         (interruptedDriverExample BackendKind.gaopt ⟨none, none⟩).1)) :=
  ⟨Or.inl rfl,
   fit_catches_keyboard_interrupt BackendKind.gaopt interruptedDriverExample
     ⟨none, none⟩ (Or.inl rfl)⟩

/-- C3: `RandomoptCV.fit` performs exactly the calls of `GAoptCV.fit`
specialized to `iter_pergeneration=1`, `param_crossover_proba=0`,
`param_mutation_proba=0`, `random_sampling_proba=1` (same seed call, same
objective construction with backend "gaopt" and NaN failure score, same
`gamin` driver call), so under any interpretation of those calls the two
backends behave identically. -/
theorem randomopt_is_specialized_gaopt (cfg : RandomoptConfig) :
    RandomoptCV.fitCall cfg =
      GAoptCV.fitCall (randomSpecializedGAConfig cfg) ∧
    ∀ (α : Type) (run : GAFitCall → α),
      run (RandomoptCV.fitCall cfg) =
        run (GAoptCV.fitCall (randomSpecializedGAConfig cfg)) :=
  ⟨rfl, fun _ _ => rfl⟩

/-- C1: when feature-flag selection yields fewer columns than
`min_n_features`, the objective function returns the failure score
immediately, records the trial as failed, and evaluates zero folds — its
result does not depend on the fold evaluator at all. -/
theorem objfunc_infeasible_skips_folds (min_n_features : Nat)
    (failedscore : Score) (score_summarizer : List ℚ → ℚ)
    (feature_groups : List Nat) (nFolds : Nat)
    (fold_eval fold_eval2 : List Nat → Nat → Option ℚ)
    (flags : Nat → Bool)
    (h : (mk_feature_select_index feature_groups flags).length <
      min_n_features) :
    (mk_objfunc_evaluate min_n_features failedscore score_summarizer
      feature_groups nFolds fold_eval flags).score = failedscore ∧
    (mk_objfunc_evaluate min_n_features failedscore score_summarizer
      feature_groups nFolds fold_eval flags).failed = true ∧
    (mk_objfunc_evaluate min_n_features failedscore score_summarizer
      feature_groups nFolds fold_eval flags).fold_scores = [] ∧
    mk_objfunc_evaluate min_n_features failedscore score_summarizer
        feature_groups nFolds fold_eval flags =
      mk_objfunc_evaluate min_n_features failedscore score_summarizer
        feature_groups nFolds fold_eval2 flags := by
  simp [mk_objfunc_evaluate, if_pos h]

/-- Witness for C1: three columns, all feature groups deselected, below the
minimum of 2; the trial fails with NaN, no fold is touched, and swapping
the fold evaluator changes nothing. -/
theorem objfunc_infeasible_skips_folds_witness :
    ((mk_feature_select_index featureGroupsExample allOffFlags).length <
       2) ∧
    ((mk_objfunc_evaluate 2 Score.nan score_summarizer_mean
       featureGroupsExample 3 foldEvalAllOk allOffFlags).score =
       Score.nan ∧
     (mk_objfunc_evaluate 2 Score.nan score_summarizer_mean
       featureGroupsExample 3 foldEvalAllOk allOffFlags).failed = true ∧
     (mk_objfunc_evaluate 2 Score.nan score_summarizer_mean
       featureGroupsExample 3 foldEvalAllOk allOffFlags).fold_scores =
       [] ∧
     mk_objfunc_evaluate 2 Score.nan score_summarizer_mean
         featureGroupsExample 3 foldEvalAllOk allOffFlags =
       mk_objfunc_evaluate 2 Score.nan score_summarizer_mean
         featureGroupsExample 3 foldEvalAllFail allOffFlags) :=
  ⟨by decide,
   objfunc_infeasible_skips_folds 2 Score.nan score_summarizer_mean
     featureGroupsExample 3 foldEvalAllOk foldEvalAllFail allOffFlags
     (by decide)⟩

/-- C5: for a feasible parameter set, the objective evaluates every fold
and its trial score is the configured aggregator applied to the successful
fold scores only, falling back to the failure score when every fold
failed. -/
theorem objfunc_aggregates_successes (min_n_features : Nat)
    (failedscore : Score) (score_summarizer : List ℚ → ℚ)
    (feature_groups : List Nat) (nFolds : Nat)
    (fold_eval : List Nat → Nat → Option ℚ) (flags : Nat → Bool)
    (h : ¬ (mk_feature_select_index feature_groups flags).length <
      min_n_features) :
    (mk_objfunc_evaluate min_n_features failedscore score_summarizer
      feature_groups nFolds fold_eval flags).fold_scores =
      (List.range nFolds).map
        (fold_eval (mk_feature_select_index feature_groups flags)) ∧
    (mk_objfunc_evaluate min_n_features failedscore score_summarizer
      feature_groups nFolds fold_eval flags).score =
      (if ((List.range nFolds).map
            (fold_eval (mk_feature_select_index feature_groups
              flags))).filterMap id = []
       then failedscore
       else Score.val (score_summarizer (((List.range nFolds).map
         (fold_eval (mk_feature_select_index feature_groups
           flags))).filterMap id))) := by
  simp only [mk_objfunc_evaluate, if_neg h]
  rcases hs : ((List.range nFolds).map
      (fold_eval (mk_feature_select_index feature_groups
        flags))).filterMap id with _ | ⟨a, t⟩
  · simp
  · simp

/-- Witness for C5: three columns all selected (feasible), three folds of
which the middle one fails; the trial score is the mean of the two
successful fold scores. -/
theorem objfunc_aggregates_successes_witness :
    (¬ (mk_feature_select_index featureGroupsExample allOnFlags).length <
       2) ∧
    ((mk_objfunc_evaluate 2 Score.nan score_summarizer_mean
       featureGroupsExample 3 foldEvalMixed allOnFlags).fold_scores =
       (List.range 3).map
         (foldEvalMixed (mk_feature_select_index featureGroupsExample
           allOnFlags)) ∧
     (mk_objfunc_evaluate 2 Score.nan score_summarizer_mean
       featureGroupsExample 3 foldEvalMixed allOnFlags).score =
       (if ((List.range 3).map
             (foldEvalMixed (mk_feature_select_index featureGroupsExample
               allOnFlags))).filterMap id = []
        then Score.nan
        else Score.val (score_summarizer_mean (((List.range 3).map
          (foldEvalMixed (mk_feature_select_index featureGroupsExample
            allOnFlags))).filterMap id)))) :=
  ⟨by decide,
   objfunc_aggregates_successes 2 Score.nan score_summarizer_mean
     featureGroupsExample 3 foldEvalMixed allOnFlags (by decide)⟩

/-- C6: the BestResult score is monotone in the configured direction across
the trial history: extending the history never worsens it, a single update
step never worsens it, and the stored best changes exactly when the new
trial's finite score is a strict improvement (a NaN trial never replaces
it). -/
theorem best_result_monotone (d : Direction) (init best : Option ℚ)
    (trials extra : List Score) (s : Score) :
    notWorse d (bestAfter d init (trials ++ extra))
      (bestAfter d init trials) ∧
    notWorse d (bestStep d best s) best ∧
    bestStep d best s =
      (if strictImprovement d s best then Score.toOption s else best) := by
  refine ⟨?_, bestStep_notWorse d best s, ?_⟩
  · have h1 : bestAfter d init (trials ++ extra) =
        bestAfter d (bestAfter d init trials) extra := by
      simp [bestAfter, List.foldl_append]
    rw [h1]
    exact bestAfter_notWorse d (bestAfter d init trials) extra
  · cases s with
    | nan => simp [bestStep, strictImprovement]
    | val a =>
      cases best with
      | none => simp [bestStep, strictImprovement, Score.toOption]
      | some b =>
        by_cases hb : betterScore d a b
        · simp [bestStep, strictImprovement, Score.toOption, hb]
        · simp [bestStep, strictImprovement, Score.toOption, hb]

/-- Witness for C6 in the maximize direction: history [1, NaN] then an
improving trial of score 2; the best moves from 1 to 2 and never
regresses. -/
theorem best_result_monotone_witness :
    notWorse Direction.maximize
      (bestAfter Direction.maximize none
        ([Score.val 1, Score.nan] ++ [Score.val 2]))
      (bestAfter Direction.maximize none [Score.val 1, Score.nan]) ∧
    notWorse Direction.maximize
      (bestStep Direction.maximize (some 1) (Score.val 2)) (some 1) ∧
    bestStep Direction.maximize (some 1) (Score.val 2) =
      (if strictImprovement Direction.maximize (Score.val 2) (some 1)
       then Score.toOption (Score.val 2) else some 1) :=
  best_result_monotone Direction.maximize none (some 1)
    [Score.val 1, Score.nan] [Score.val 2] (Score.val 2)

/-- C8: at the probability bounds the breeding step is deterministic: with
crossover probability 1 every offspring parameter is exactly the other
parent's value, with 0 it is exactly the designated parent's value, and
for any probability a crossed-over parameter is one parent's value, never
a blend; likewise mutation probability 0 never changes a parameter and 1
always resamples it. -/
theorem breeding_bounds_deterministic {V : Type} (p : ℚ) (rs : Nat → ℚ)
    (designated other fresh : Nat → V) (i : Nat)
    (h0 : 0 ≤ rs i) (h1 : rs i < 1) :
    crossoverOffspring 1 rs designated other i = other i ∧
    crossoverOffspring 0 rs designated other i = designated i ∧
    (crossoverOffspring p rs designated other i = designated i ∨
     crossoverOffspring p rs designated other i = other i) ∧
    mutateOffspring 0 rs designated fresh i = designated i ∧
    mutateOffspring 1 rs designated fresh i = fresh i := by
  refine ⟨?_, ?_, ?_, ?_, ?_⟩
  · simp [crossoverOffspring, crossoverParam, h1]
  · simp [crossoverOffspring, crossoverParam, not_lt.mpr h0]
  · by_cases hc : rs i < p
    · exact Or.inr (by simp [crossoverOffspring, crossoverParam, hc])
    · exact Or.inl (by simp [crossoverOffspring, crossoverParam, hc])
  · simp [mutateOffspring, not_lt.mpr h0]
  · simp [mutateOffspring, h1]

/-- Witness for C8 at parameter index 0 with draws of 1/2 and crossover
probability 1/2. -/
theorem breeding_bounds_deterministic_witness :
    (0 ≤ halfDraws 0) ∧ (halfDraws 0 < 1) ∧
    (crossoverOffspring 1 halfDraws parentOneVals parentTwoVals 0 =
       parentTwoVals 0 ∧
     crossoverOffspring 0 halfDraws parentOneVals parentTwoVals 0 =
       parentOneVals 0 ∧
     (crossoverOffspring (1 / 2) halfDraws parentOneVals parentTwoVals 0 =
        parentOneVals 0 ∨
      crossoverOffspring (1 / 2) halfDraws parentOneVals parentTwoVals 0 =
        parentTwoVals 0) ∧
     mutateOffspring 0 halfDraws parentOneVals freshVals 0 =
       parentOneVals 0 ∧
     mutateOffspring 1 halfDraws parentOneVals freshVals 0 = freshVals 0) :=
  ⟨by norm_num [halfDraws], by norm_num [halfDraws],
   breeding_bounds_deterministic (1 / 2) halfDraws parentOneVals
     parentTwoVals freshVals 0 (by norm_num [halfDraws])
     (by norm_num [halfDraws])⟩
